import Mathlib

/-!
Shallow embedding of `src/main.py` (FastAPI "Blob → Power BI Multi-Table Push").

The program is a linear pipeline behind one HTTP handler `generate`:
validate fields → OAuth token → list/download/parse blobs → create push
dataset → push rows per table → clone report → return identifiers.

Remote services (identity provider, blob storage, Power BI REST API) are
modelled by an `Env` record that supplies the container listing, blob
contents and the outcome of each remote call.  Every outbound request the
Python code issues is recorded as a `Call` in an append-only trace, so
ordering and abort behaviour are observable.  `HTTPException` and
`raise_for_status` failures are modelled with `Except HttpError`.

Library behaviour used by the code is modelled where the claims need it:
`pandas.read_csv` keeps its column-wise integer inference (a column whose
cells are all integer literals is parsed as integers, otherwise cells stay
text and empty cells are missing/NaN); `pandas.read_excel` is an opaque
decoder of the spreadsheet's byte content into a table, modelled by the same
tabular decoding since only the resulting table is observable downstream;
float columns and malformed inputs outside the claims' scope are not
modelled.  `requests.post(json=...)` serialises Python values as JSON, so a
cell keeps its parsed type (`Value.num` vs `Value.str`).
-/

set_option autoImplicit false

namespace BlobPush

/-- A JSON-serialisable cell value as it travels from pandas into the
request body: a text cell, an integer cell, or a missing value (NaN/None). -/
inductive Value where
  | str (s : String)
  | num (n : Int)
  | null
  deriving DecidableEq, Repr

/-- A pandas DataFrame as the pipeline observes it: ordered column names and
rows of cell values (row i's j-th entry belongs to column j). -/
structure DataFrame where
  columns : List String
  rows : List (List Value)
  deriving DecidableEq, Repr

/-- An HTTP failure: `HTTPException(status_code, detail)` raised by the
handler itself, or a non-success upstream response surfaced by
`raise_for_status`. -/
structure HttpError where
  status : Nat
  detail : String
  deriving DecidableEq, Repr

/-- Decidable equality for remote-call outcomes, so concrete runs can be
checked by evaluation. -/
def exceptDecEq {ε α : Type} [DecidableEq ε] [DecidableEq α] :
    (x y : Except ε α) → Decidable (x = y)
  | Except.error a, Except.error b =>
    match decEq a b with
    | isTrue h => isTrue (by rw [h])
    | isFalse h => isFalse (by intro hc; exact h (Except.error.inj hc))
  | Except.error _, Except.ok _ => isFalse (by intro hc; exact Except.noConfusion hc)
  | Except.ok _, Except.error _ => isFalse (by intro hc; exact Except.noConfusion hc)
  | Except.ok a, Except.ok b =>
    match decEq a b with
    | isTrue h => isTrue (by rw [h])
    | isFalse h => isFalse (by intro hc; exact h (Except.ok.inj hc))

instance {ε α : Type} [DecidableEq ε] [DecidableEq α] : DecidableEq (Except ε α) :=
  exceptDecEq

/-- One stored blob: full path name and raw content. -/
structure Blob where
  name : String
  content : String
  deriving DecidableEq, Repr

/-- Column entry of the dataset-creation payload: `{"name": col, "dataType": "string"}`. -/
structure ColumnDef where
  name : String
  dataType : String
  deriving DecidableEq, Repr

/-- Table entry of the dataset-creation payload. -/
structure TableDef where
  name : String
  columns : List ColumnDef
  deriving DecidableEq, Repr

/-- The JSON body sent to the dataset-creation endpoint. -/
structure DatasetPayload where
  name : String
  defaultMode : String
  tables : List TableDef
  deriving DecidableEq, Repr

/-- One outbound remote request issued by the pipeline, with the data it
carries.  There is no constructor for deleting or undoing anything: the
program has no rollback call. -/
inductive Call where
  | tokenRequest
  | listBlobs (container : String) (pre : String)
  | downloadBlob (container : String) (blobName : String)
  | createDataset (workspace : String) (payload : DatasetPayload)
  | pushRows (workspace : String) (datasetId : String) (tableName : String)
      (rows : List (List (String × Value)))
  | cloneReport (templateWorkspace : String) (templateReport : String)
      (name : String) (targetWorkspace : String) (targetModelId : String)
  deriving DecidableEq, Repr

/-- Process-wide configuration loaded from the environment at startup. -/
structure Config where
  templateWorkspaceId : String
  templateReportId : String

/-- The remote world: blob listings per container and the outcome each
remote endpoint returns (`Except.error` models a non-success response that
`raise_for_status` turns into an exception). -/
structure Env where
  tokenResult : Except HttpError String
  blobs : String → List Blob
  createResult : Except HttpError String
  pushResult : String → Except HttpError Unit
  cloneResult : Except HttpError String

/-- Effectful computation: threads the append-only trace of remote calls
and short-circuits on the first raised error, like Python exceptions
propagating out of the handler. -/
def Eff (α : Type) : Type := List Call → Except HttpError α × List Call

instance : Monad Eff where
  pure a := fun t => (Except.ok a, t)
  bind x f := fun t =>
    match x t with
    | (Except.ok a, t1) => f a t1
    | (Except.error e, t1) => (Except.error e, t1)

/-- Record one outbound request in the trace. -/
def emit (c : Call) : Eff Unit := fun t => (Except.ok (), t ++ [c])

/-- Raise an `HTTPException` / propagate an upstream failure. -/
def raiseHttp {α : Type} (e : HttpError) : Eff α := fun t => (Except.error e, t)

/-- Surface an environment-provided remote outcome (`raise_for_status`). -/
def liftResult {α : Type} (r : Except HttpError α) : Eff α := fun t => (r, t)

/-! ### String primitives

Structural reimplementations over the underlying character lists of the
string operations the code relies on (`str.split`-style splitting,
prefix/suffix tests, concatenation, integer parsing), so that concrete runs
of the pipeline evaluate inside the kernel. -/

/-- Split a character list at every occurrence of `sep` (Python
`str.split(sep)` semantics for a one-character separator). -/
def splitCharsAux (sep : Char) : List Char → List Char → List (List Char)
  | [], cur => [cur.reverse]
  | c :: cs, cur =>
    if c = sep then cur.reverse :: splitCharsAux sep cs []
    else splitCharsAux sep cs (c :: cur)

/-- Split a string on a one-character separator. -/
def splitStr (sep : Char) (s : String) : List String :=
  (splitCharsAux sep s.data []).map String.mk

/-- String concatenation through the character lists. -/
def strCat (s t : String) : String := String.mk (s.data ++ t.data)

/-- Python `str.startswith`. -/
def strStartsWith (s pre : String) : Bool := pre.data.isPrefixOf s.data

/-- Python `str.endswith`. -/
def strEndsWith (s suff : String) : Bool := suff.data.isSuffixOf s.data

/-- Join string parts with a one-character separator. -/
def joinWith (sep : Char) (parts : List String) : String :=
  String.mk (List.intercalate [sep] (parts.map String.data))

/-- Parse a decimal digit. -/
def digitVal (c : Char) : Option Nat :=
  if c.isDigit then some (c.toNat - 48) else none

/-- Parse an unsigned decimal integer from a character list. -/
def natOfChars : List Char → Option Nat
  | [] => none
  | cs => cs.foldl (fun acc c =>
      match acc, digitVal c with
      | some n, some d => some (n * 10 + d)
      | _, _ => none) (some 0)

/-- Parse an optionally signed decimal integer (what pandas accepts as an
int64 cell in the cases the claims exercise). -/
def intOfChars (cs : List Char) : Option Int :=
  match cs with
  | '-' :: rest => (natOfChars rest).map (fun n => -(n : Int))
  | _ => (natOfChars cs).map (fun n => (n : Int))

/-! ### Modelled pandas primitives -/

/-- Whether a CSV cell is an integer literal (pandas gives the column int64
dtype when every cell is). -/
def isIntCell (s : String) : Bool := s ≠ "" && (intOfChars s.data).isSome

/-- Modelled `pandas.read_csv`: first line is the header, remaining
non-empty lines are comma-separated rows; a column whose cells are all
integer literals is parsed as integers, otherwise cells stay text and an
empty cell becomes missing (NaN).  Float columns and malformed content are
outside the scope of the claims and are not modelled. -/
def read_csv (content : String) : DataFrame :=
  match (splitStr '\n' content).filter (fun l => l ≠ "") with
  | [] => { columns := [], rows := [] }
  | header :: body =>
    let cols := splitStr ',' header
    let grid := body.map (fun l => splitStr ',' l)
    let colIsInt : Nat → Bool := fun j => grid.all (fun r => isIntCell (r.getD j ""))
    { columns := cols,
      rows := grid.map (fun r =>
        (List.range cols.length).map (fun j =>
          let c := r.getD j ""
          if colIsInt j then Value.num ((intOfChars c.data).getD 0)
          else if c = "" then Value.null
          else Value.str c)) }

/-- Modelled `pandas.read_excel`: decodes the spreadsheet's byte content
into its table.  Only the resulting table is observable downstream, so the
decoding reuses the tabular decoder. -/
def read_excel (content : String) : DataFrame := read_csv content

/-- Modelled `os.path.basename`: the part after the last `/`. -/
def baseName (s : String) : String := (splitStr '/' s).getLastD s

/-- Modelled `os.path.splitext(...)[0]`: drop the final `.`-separated
extension, keep everything else. -/
def stem (s : String) : String :=
  match splitStr '.' s with
  | [] => s
  | [p] => p
  | parts => joinWith '.' parts.dropLast

/-! ### The pipeline -/

/-- Dataset name constant `DATASET_NAME`. -/
def DATASET_NAME : String := "Migrated_Dataset"

/-- Python `tables[table_name] = df`: replace the value in place when the
key exists, otherwise append a new entry (dict insertion-order semantics). -/
def dictUpdate (m : List (String × DataFrame)) (k : String) (v : DataFrame) :
    List (String × DataFrame) :=
  if m.any (fun p => p.1 = k)
  then m.map (fun p => if p.1 = k then (k, v) else p)
  else m ++ [(k, v)]

/-- First-match association lookup on the table mapping. -/
def lookupTable : List (String × DataFrame) → String → Option DataFrame
  | [], _ => none
  | p :: m, n => if p.1 = n then some p.2 else lookupTable m n

/-- The `for blob in container.list_blobs(...)` loop body of
`read_blob_tables`: download each blob, parse by extension (`.csv` /
`.xls` / `.xlsx`, anything else skipped), and store under the file stem. -/
def readLoop (container : String) :
    List Blob → List (String × DataFrame) → Eff (List (String × DataFrame))
  | [], acc => pure acc
  | b :: rest, acc => do
    emit (Call.downloadBlob container b.name)
    let fileName := baseName b.name
    if strEndsWith fileName ".csv" then
      readLoop container rest (dictUpdate acc (stem fileName) (read_csv b.content))
    else if strEndsWith fileName ".xls" || strEndsWith fileName ".xlsx" then
      readLoop container rest (dictUpdate acc (stem fileName) (read_excel b.content))
    else
      readLoop container rest acc

/-- Models `get_token`: one client-credentials POST; non-success raises. -/
def get_token (env : Env) : Eff String := do
  emit Call.tokenRequest
  liftResult env.tokenResult

/-- Models `read_blob_tables`: list blobs under `folder_name/`, build the
table mapping, and raise 404 when it ends up empty. -/
def read_blob_tables (env : Env) (container_name folder_name : String) :
    Eff (List (String × DataFrame)) := do
  emit (Call.listBlobs container_name (strCat folder_name "/"))
  let matching := (env.blobs container_name).filter
    (fun b => strStartsWith b.name (strCat folder_name "/"))
  let tables ← readLoop container_name matching []
  if tables.isEmpty then
    raiseHttp { status := 404, detail := "No valid files found" }
  else
    pure tables

/-- The JSON body `create_dataset` builds: dataset name, push mode, and one
schema per table where every column is declared with `dataType "string"`. -/
def datasetPayload (tables : List (String × DataFrame)) : DatasetPayload :=
  { name := DATASET_NAME,
    defaultMode := "Push",
    tables := tables.map (fun p =>
      { name := p.1,
        columns := p.2.columns.map (fun c => { name := c, dataType := "string" }) }) }

/-- Models `create_dataset`: POST the schema payload, return the new dataset id. -/
def create_dataset (env : Env) (token : String) (workspace_id : String)
    (tables : List (String × DataFrame)) : Eff String := do
  emit (Call.createDataset workspace_id (datasetPayload tables))
  liftResult env.createResult

/-- Replace one missing cell by the empty string, keep other cells. -/
def nullToEmpty : Value → Value
  | Value.null => Value.str ""
  | v => v

/-- The NaN/None cleanup `df.where(pd.notnull(df), "")`: every missing cell
becomes the empty string. -/
def fillNull (df : DataFrame) : DataFrame :=
  { df with rows := df.rows.map (fun r => r.map nullToEmpty) }

/-- Models `df.to_dict(orient="records")`: one key/value record per row,
keys in column order. -/
def toRecords (df : DataFrame) : List (List (String × Value)) :=
  df.rows.map (fun r => df.columns.zip r)

/-- The row list push_rows serialises into the rows field of the request body. -/
def pushedRows (df : DataFrame) : List (List (String × Value)) :=
  toRecords (fillNull df)

/-- Models `push_rows`: clean missing values, POST the records of one table. -/
def push_rows (env : Env) (token : String) (workspace_id dataset_id table_name : String)
    (df : DataFrame) : Eff Unit := do
  emit (Call.pushRows workspace_id dataset_id table_name (pushedRows df))
  liftResult (env.pushResult table_name)

/-- Models `clone_report`: clone the fixed template into the target
workspace, rebound to the new dataset. -/
def clone_report (cfg : Config) (env : Env) (token : String)
    (target_workspace_id dataset_id report_name : String) : Eff String := do
  emit (Call.cloneReport cfg.templateWorkspaceId cfg.templateReportId
    report_name target_workspace_id dataset_id)
  liftResult env.cloneResult

/-- A JSON value of the handler's response object. -/
inductive RespVal where
  | s (v : String)
  | arr (vs : List String)
  deriving DecidableEq, Repr

/-- The handler's JSON response: an object kept as an ordered key/value list. -/
abbrev Response := List (String × RespVal)

/-- The request body of POST `/generate`; `none` models an absent key
(`payload.get` returns `None`). -/
structure Request where
  container_name : Option String
  folder_name : Option String
  report_name : Option String
  target_workspace_id : Option String
  deriving DecidableEq, Repr

/-- Python truthiness of `payload.get(...)`: absent and empty-string values
are both falsy. -/
def truthy : Option String → Bool
  | none => false
  | some s => s ≠ ""

/-- The handler's validation test
`all([container_name, folder_name, report_name, target_workspace_id])`. -/
def requiredPresent (p : Request) : Bool :=
  truthy p.container_name && truthy p.folder_name && truthy p.report_name &&
    truthy p.target_workspace_id

/-- The per-table push loop of the handler (`for table_name, df in
tables.items(): push_rows(...)`). -/
def pushLoop (env : Env) (token : String) (workspace dataset_id : String) :
    List (String × DataFrame) → Eff Unit
  | [] => pure ()
  | (n, df) :: rest => do
    push_rows env token workspace dataset_id n df
    pushLoop env token workspace dataset_id rest

/-- The `/generate` handler body, in the trace/exception monad. -/
def generateM (cfg : Config) (env : Env) (payload : Request) : Eff Response :=
  let container_name := payload.container_name
  let folder_name := payload.folder_name
  let report_name := payload.report_name
  let target_workspace_id := payload.target_workspace_id
  if !requiredPresent payload then
    raiseHttp
      { status := 400,
        detail := "container_name, folder_name, report_name, target_workspace_id required" }
  else do
    let token ← get_token env
    let tables ← read_blob_tables env (container_name.getD "") (folder_name.getD "")
    let dataset_id ← create_dataset env token (target_workspace_id.getD "") tables
    pushLoop env token (target_workspace_id.getD "") dataset_id tables
    let report_id ← clone_report cfg env token (target_workspace_id.getD "")
      dataset_id (report_name.getD "")
    pure [("datasetId", RespVal.s dataset_id),
          ("reportId", RespVal.s report_id),
          ("tables", RespVal.arr (tables.map Prod.fst)),
          ("workspaceId", RespVal.s (target_workspace_id.getD ""))]

/-- One invocation of the handler: final outcome and the full ordered trace
of remote calls it performed. -/
def generate (cfg : Config) (env : Env) (payload : Request) :
    Except HttpError Response × List Call :=
  generateM cfg env payload []

/-! ### Specification-side definitions

Closed-form descriptions of what the loops of the pipeline produce, used to
state the claims: which table (if any) one blob contributes, the fold of
the blob loop, the calls it downloads, the per-table push schedule, and the
linear step sequence of the whole handler. -/

/-- The table one listed blob contributes: its stem and parsed content for
a `.csv`/`.xls`/`.xlsx` file, nothing for any other extension. -/
def parsedOf (b : Blob) : Option (String × DataFrame) :=
  let fileName := baseName b.name
  if strEndsWith fileName ".csv" then some (stem fileName, read_csv b.content)
  else if strEndsWith fileName ".xls" || strEndsWith fileName ".xlsx" then
    some (stem fileName, read_excel b.content)
  else none

/-- Fold one blob into the table mapping (dict write or skip). -/
def applyBlob (m : List (String × DataFrame)) (b : Blob) : List (String × DataFrame) :=
  match parsedOf b with
  | some e => dictUpdate m e.1 e.2
  | none => m

/-- The table mapping after the blob loop has processed `bs`. -/
def tablesAfter (acc : List (String × DataFrame)) (bs : List Blob) :
    List (String × DataFrame) :=
  bs.foldl applyBlob acc

/-- The download requests the blob loop issues, one per listed blob. -/
def downloadCalls (container : String) (bs : List Blob) : List Call :=
  bs.map (fun b => Call.downloadBlob container b.name)

/-- The tables of a parsed blob listing, in listing order, duplicates kept. -/
def parsedEntries (bs : List Blob) : List (String × DataFrame) :=
  bs.filterMap parsedOf

/-- The container's blobs the listing returns for the folder's prefix. -/
def matchingBlobs (env : Env) (c f : String) : List Blob :=
  (env.blobs c).filter (fun b => strStartsWith b.name (strCat f "/"))

/-- Last-occurrence association lookup: the value of the last entry with
the given key. -/
def lastAssoc : List (String × DataFrame) → String → Option DataFrame
  | [], _ => none
  | p :: l, n =>
    match lastAssoc l n with
    | some v => some v
    | none => if p.1 = n then some p.2 else none

/-- The push schedule of the handler's per-table loop: the row-push calls
it issues, in mapping iteration order, cut short after the first failing
table, together with the loop's outcome. -/
def pushSpec (env : Env) (workspace dataset_id : String) :
    List (String × DataFrame) → List Call × Except HttpError Unit
  | [] => ([], Except.ok ())
  | (n, df) :: rest =>
    match env.pushResult n with
    | Except.error e =>
      ([Call.pushRows workspace dataset_id n (pushedRows df)], Except.error e)
    | Except.ok _ =>
      let r := pushSpec env workspace dataset_id rest
      (Call.pushRows workspace dataset_id n (pushedRows df) :: r.1, r.2)

/-- Whether a call writes to the analytics service (creates a dataset,
pushes rows, or clones a report). -/
def isWriteCall : Call → Bool
  | Call.createDataset _ _ => true
  | Call.pushRows _ _ _ _ => true
  | Call.cloneReport _ _ _ _ _ => true
  | _ => false

/-- First-match key lookup on the response object. -/
def lookupResp : Response → String → Option RespVal
  | [], _ => none
  | p :: m, n => if p.1 = n then some p.2 else lookupResp m n

/-- Modelled from the spec (section 4.5): the handler as a linear step
sequence — validate required fields → acquire token → read source tables →
create dataset → push rows per table in mapping iteration order → clone
report → return identifiers.  A failure at any step ends the sequence
there: the calls of completed steps stay in the trace (nothing is undone;
`Call` has no delete/rollback constructor) and no later step's call is
issued. -/
def specPipeline (cfg : Config) (env : Env) (p : Request) :
    Except HttpError Response × List Call :=
  if !requiredPresent p then
    (Except.error
      { status := 400,
        detail := "container_name, folder_name, report_name, target_workspace_id required" },
     [])
  else
    let c := p.container_name.getD ""
    let w := p.target_workspace_id.getD ""
    let pre := strCat (p.folder_name.getD "") "/"
    let ms := matchingBlobs env c (p.folder_name.getD "")
    let tbls := tablesAfter [] ms
    let readCalls := Call.listBlobs c pre :: downloadCalls c ms
    match env.tokenResult with
    | Except.error e => (Except.error e, [Call.tokenRequest])
    | Except.ok _ =>
      if tbls.isEmpty then
        (Except.error { status := 404, detail := "No valid files found" },
         Call.tokenRequest :: readCalls)
      else
        match env.createResult with
        | Except.error e =>
          (Except.error e,
           Call.tokenRequest :: readCalls ++ [Call.createDataset w (datasetPayload tbls)])
        | Except.ok ds =>
          let pr := pushSpec env w ds tbls
          match pr.2 with
          | Except.error e =>
            (Except.error e,
             Call.tokenRequest :: readCalls ++ Call.createDataset w (datasetPayload tbls) :: pr.1)
          | Except.ok _ =>
            let cloneCall := Call.cloneReport cfg.templateWorkspaceId cfg.templateReportId
              (p.report_name.getD "") w ds
            match env.cloneResult with
            | Except.error e =>
              (Except.error e,
               Call.tokenRequest :: readCalls ++
                 Call.createDataset w (datasetPayload tbls) :: pr.1 ++ [cloneCall])
            | Except.ok rid =>
              (Except.ok [("datasetId", RespVal.s ds), ("reportId", RespVal.s rid),
                          ("tables", RespVal.arr (tbls.map Prod.fst)),
                          ("workspaceId", RespVal.s w)],
               Call.tokenRequest :: readCalls ++
                 Call.createDataset w (datasetPayload tbls) :: pr.1 ++ [cloneCall])

/-! ### Concrete sample inputs used by witnesses and counterexamples -/

/-- Sample configuration. -/
def sampleConfig : Config :=
  { templateWorkspaceId := "tws", templateReportId := "trep" }

/-- The CSV of the round-trip scenario: columns `id,name`, rows
`(1,"a"),(2,"b")`. -/
def sampleCsv : String := "id,name\n1,a\n2,b"

/-- An environment with one CSV blob under `2024/` in container `acme`
where every remote call succeeds. -/
def sampleEnv : Env :=
  { tokenResult := Except.ok "tok",
    blobs := fun c =>
      if c = "acme" then [{ name := "2024/data.csv", content := sampleCsv }] else [],
    createResult := Except.ok "ds-1",
    pushResult := fun _ => Except.ok (),
    cloneResult := Except.ok "rep-1" }

/-- The end-to-end scenario request of the spec. -/
def sampleRequest : Request :=
  { container_name := some "acme", folder_name := some "2024",
    report_name := some "Q1 Report", target_workspace_id := some "ws1" }

/-- An environment whose container `acme` holds `orders.csv` and
`customers.xlsx` under `2024/`. -/
def multiEnv : Env :=
  { sampleEnv with
    blobs := fun c =>
      if c = "acme" then
        [{ name := "2024/orders.csv", content := "sku,qty\n7,2" },
         { name := "2024/customers.xlsx", content := "cust,region\nx,north" }]
      else [] }

/-- An environment whose container `acme` holds two files with the same
stem `dup` under `2024/`. -/
def dupEnv : Env :=
  { sampleEnv with
    blobs := fun c =>
      if c = "acme" then
        [{ name := "2024/dup.csv", content := "a\nx" },
         { name := "2024/dup.xlsx", content := "b\ny" }]
      else [] }

/-- An environment whose container `acme` holds only a `.txt` blob under
`2024/`, so nothing parses. -/
def txtEnv : Env :=
  { sampleEnv with
    blobs := fun c =>
      if c = "acme" then [{ name := "2024/notes.txt", content := "hello" }] else [] }

/-- A CSV with a missing cell: row 1 has no `name` value. -/
def gapCsv : String := "id,name\n1,\n2,b"

/-! ### Unfolding lemmas for the trace monad -/

theorem bind_apply {α β : Type} (x : Eff α) (f : α → Eff β) (t : List Call) :
    (x >>= f) t =
      match x t with
      | (Except.ok a, t1) => f a t1
      | (Except.error e, t1) => (Except.error e, t1) := rfl

theorem pure_apply {α : Type} (a : α) (t : List Call) :
    (pure a : Eff α) t = (Except.ok a, t) := rfl

theorem emit_apply (c : Call) (t : List Call) : emit c t = (Except.ok (), t ++ [c]) := rfl

theorem raiseHttp_apply {α : Type} (e : HttpError) (t : List Call) :
    (raiseHttp e : Eff α) t = (Except.error e, t) := rfl

theorem liftResult_apply {α : Type} (r : Except HttpError α) (t : List Call) :
    liftResult r t = (r, t) := rfl

/-- The blob loop never fails, folds `applyBlob` over the listing, and
emits exactly one download call per listed blob, in listing order. -/
theorem readLoop_spec (c : String) (bs : List Blob) (acc : List (String × DataFrame))
    (t : List Call) :
    readLoop c bs acc t = (Except.ok (tablesAfter acc bs), t ++ downloadCalls c bs) := by
  induction bs generalizing acc t with
  | nil => simp [readLoop, tablesAfter, downloadCalls, pure_apply]
  | cons b rest ih =>
    by_cases h1 : strEndsWith (baseName b.name) ".csv"
    · simp [readLoop, bind_apply, emit_apply, h1, ih, tablesAfter, downloadCalls,
        applyBlob, parsedOf]
    · by_cases h2 : (strEndsWith (baseName b.name) ".xls" ||
          strEndsWith (baseName b.name) ".xlsx") = true
      · simp [readLoop, bind_apply, emit_apply, h1, h2, ih, tablesAfter, downloadCalls,
          applyBlob, parsedOf]
      · simp [readLoop, bind_apply, emit_apply, h1, h2, ih, tablesAfter, downloadCalls,
          applyBlob, parsedOf]

/-- Listing behaviour: `read_blob_tables` downloads every matching blob and returns
the folded table mapping, raising 404 exactly when it is empty. -/
theorem read_blob_tables_spec (env : Env) (c f : String) (t : List Call) :
    read_blob_tables env c f t =
      ((if (tablesAfter [] (matchingBlobs env c f)).isEmpty
        then Except.error { status := 404, detail := "No valid files found" }
        else Except.ok (tablesAfter [] (matchingBlobs env c f))),
       t ++ Call.listBlobs c (strCat f "/") :: downloadCalls c (matchingBlobs env c f)) := by
  simp only [read_blob_tables, bind_apply, emit_apply, readLoop_spec, matchingBlobs]
  by_cases h : (tablesAfter []
      ((env.blobs c).filter (fun b => strStartsWith b.name (strCat f "/")))).isEmpty
  · simp [h, raiseHttp_apply]
  · simp [h, pure_apply]

/-- The handler's push loop emits the push schedule and returns its
outcome. -/
theorem pushLoop_spec (env : Env) (tok w ds : String) (ts : List (String × DataFrame))
    (t : List Call) :
    pushLoop env tok w ds ts t =
      ((pushSpec env w ds ts).2, t ++ (pushSpec env w ds ts).1) := by
  induction ts generalizing t with
  | nil => simp [pushLoop, pushSpec, pure_apply]
  | cons e rest ih =>
    obtain ⟨n, df⟩ := e
    cases hp : env.pushResult n with
    | error er =>
      simp [pushLoop, push_rows, bind_apply, emit_apply, liftResult_apply, hp, pushSpec]
    | ok u =>
      simp [pushLoop, push_rows, bind_apply, emit_apply, liftResult_apply, hp, pushSpec, ih]

/-- The handler equals the staged pipeline on every input: same outcome and
same trace of remote calls. -/
theorem generate_eq_specPipeline (cfg : Config) (env : Env) (p : Request) :
    generate cfg env p = specPipeline cfg env p := by
  by_cases hv : requiredPresent p
  · simp only [generate, generateM, specPipeline, hv, Bool.not_true, Bool.false_eq_true,
      if_false, bind_apply, get_token, emit_apply, liftResult_apply]
    cases htok : env.tokenResult with
    | error e => simp
    | ok tok =>
      simp only [read_blob_tables_spec]
      by_cases hemp : (tablesAfter [] (matchingBlobs env (p.container_name.getD "")
          (p.folder_name.getD ""))).isEmpty
      · simp [hemp]
      · simp only [hemp, Bool.false_eq_true, if_false]
        simp only [create_dataset, bind_apply, emit_apply, liftResult_apply]
        cases hcr : env.createResult with
        | error e => simp
        | ok ds =>
          simp only [pushLoop_spec, bind_apply]
          cases hps : (pushSpec env (p.target_workspace_id.getD "") ds
              (tablesAfter [] (matchingBlobs env (p.container_name.getD "")
                (p.folder_name.getD "")))).2 with
          | error e => simp [List.append_assoc]
          | ok u =>
            simp only [clone_report, bind_apply, emit_apply, liftResult_apply]
            cases hcl : env.cloneResult with
            | error e => simp [List.append_assoc]
            | ok rid => simp [pure_apply, List.append_assoc]
  · simp [generate, generateM, specPipeline, hv, raiseHttp_apply]

theorem lookupTable_append_single (m : List (String × DataFrame)) (k n : String)
    (v : DataFrame) :
    lookupTable (m ++ [(k, v)]) n =
      match lookupTable m n with
      | some w => some w
      | none => if k = n then some v else none := by
  induction m with
  | nil => simp [lookupTable]
  | cons p m ih =>
    by_cases hp : p.1 = n
    · simp [lookupTable, hp]
    · simp [lookupTable, hp, ih]

theorem lookupTable_none_of_any_false (m : List (String × DataFrame)) (k : String)
    (h : m.any (fun p => p.1 = k) = false) : lookupTable m k = none := by
  induction m with
  | nil => rfl
  | cons p m ih =>
    simp only [List.any_cons, Bool.or_eq_false_iff] at h
    simp only [lookupTable]
    rw [if_neg (by simpa using h.1)]
    exact ih h.2

theorem lookupTable_map_subst (m : List (String × DataFrame)) (k n : String)
    (v : DataFrame) :
    lookupTable (m.map (fun p => if p.1 = k then (k, v) else p)) n =
      if k = n then (if m.any (fun p => p.1 = k) then some v else none)
      else lookupTable m n := by
  induction m with
  | nil => simp [lookupTable]
  | cons p m ih =>
    simp only [List.map_cons, lookupTable, List.any_cons]
    by_cases hpk : p.1 = k
    · rw [if_pos hpk]
      simp only [lookupTable]
      by_cases hkn : k = n
      · simp [hkn, hpk]
      · have hpn : ¬ p.1 = n := by rw [hpk]; exact hkn
        simp [hkn, hpn, ih, hpk]
    · rw [if_neg hpk]
      by_cases hpn : p.1 = n
      · have hkn : ¬ k = n := fun h => hpk (by rw [hpn, h])
        simp [hpn, hkn]
      · rw [if_neg hpn, ih]
        by_cases hkn : k = n
        · simp only [if_pos hkn, decide_eq_false hpk, Bool.false_or]
        · rw [if_neg hkn, if_neg hkn, if_neg hpn]

theorem dictUpdate_lookup (m : List (String × DataFrame)) (k n : String) (v : DataFrame) :
    lookupTable (dictUpdate m k v) n = if k = n then some v else lookupTable m n := by
  unfold dictUpdate
  cases hany : m.any (fun p => p.1 = k) with
  | false =>
    simp only [Bool.false_eq_true, if_false, lookupTable_append_single]
    by_cases hkn : k = n
    · subst hkn
      rw [lookupTable_none_of_any_false m k hany]
    · cases hl : lookupTable m n <;> simp [hkn, hl]
  | true => simp [hany, lookupTable_map_subst]

theorem dictUpdate_keys_of_any_true (m : List (String × DataFrame)) (k : String)
    (v : DataFrame) (h : m.any (fun p => p.1 = k) = true) :
    (dictUpdate m k v).map Prod.fst = m.map Prod.fst := by
  unfold dictUpdate
  rw [if_pos h, List.map_map]
  refine List.map_congr_left ?_
  intro p hp
  by_cases hpk : p.1 = k
  · simp [Function.comp, hpk]
  · simp [Function.comp, hpk]

theorem dictUpdate_keys_nodup (m : List (String × DataFrame)) (k : String) (v : DataFrame)
    (h : (m.map Prod.fst).Nodup) : ((dictUpdate m k v).map Prod.fst).Nodup := by
  cases hany : m.any (fun p => p.1 = k) with
  | false =>
    have hk : k ∉ m.map Prod.fst := by
      intro hmem
      obtain ⟨p, hp, hpk⟩ := List.mem_map.mp hmem
      have := List.any_eq_false.mp hany p hp
      simp [hpk] at this
    unfold dictUpdate
    rw [if_neg (by simp [hany])]
    simp [List.nodup_append, h, hk]
  | true => rw [dictUpdate_keys_of_any_true m k v hany]; exact h

theorem tablesAfter_nodup (bs : List Blob) (acc : List (String × DataFrame))
    (h : (acc.map Prod.fst).Nodup) : ((tablesAfter acc bs).map Prod.fst).Nodup := by
  induction bs generalizing acc with
  | nil => exact h
  | cons b rest ih =>
    cases hb : parsedOf b with
    | none => simpa [tablesAfter, applyBlob, hb] using ih acc h
    | some e =>
      simpa [tablesAfter, applyBlob, hb] using
        ih (dictUpdate acc e.1 e.2) (dictUpdate_keys_nodup acc e.1 e.2 h)

theorem lookupTable_tablesAfter (bs : List Blob) (acc : List (String × DataFrame))
    (n : String) :
    lookupTable (tablesAfter acc bs) n =
      match lastAssoc (parsedEntries bs) n with
      | some v => some v
      | none => lookupTable acc n := by
  induction bs generalizing acc with
  | nil => simp [tablesAfter, parsedEntries, lastAssoc]
  | cons b rest ih =>
    cases hb : parsedOf b with
    | none =>
      have h0 := ih acc
      simp only [tablesAfter, parsedEntries] at h0
      simpa [tablesAfter, applyBlob, hb, parsedEntries, List.filterMap_cons] using h0
    | some e =>
      simp only [tablesAfter, List.foldl_cons, applyBlob, hb, parsedEntries,
        List.filterMap_cons]
      have h0 := ih (dictUpdate acc e.1 e.2)
      simp only [tablesAfter, parsedEntries] at h0
      rw [h0, dictUpdate_lookup]
      simp only [lastAssoc]
      cases hl : lastAssoc (rest.filterMap parsedOf) n with
      | some w => simp [hl]
      | none => by_cases he : e.1 = n <;> simp [hl, he]

theorem lastAssoc_mem (l : List (String × DataFrame)) (n : String) (v : DataFrame)
    (h : lastAssoc l n = some v) : n ∈ l.map Prod.fst := by
  induction l generalizing v with
  | nil => simp [lastAssoc] at h
  | cons p l ih =>
    simp only [lastAssoc] at h
    cases hl : lastAssoc l n with
    | some w =>
      rw [hl] at h
      simpa using Or.inr (ih w hl)
    | none =>
      rw [hl] at h
      by_cases hp : p.1 = n
      · simp [hp]
      · simp [hp] at h

theorem lookupTable_eq_none_iff (m : List (String × DataFrame)) (n : String) :
    lookupTable m n = none ↔ n ∉ m.map Prod.fst := by
  induction m with
  | nil => simp [lookupTable]
  | cons p m ih =>
    by_cases hp : p.1 = n
    · simp [lookupTable, hp]
    · simp [lookupTable, hp, ih, Ne.symm hp]

theorem tablesAfter_of_none (bs : List Blob) (acc : List (String × DataFrame))
    (h : ∀ b ∈ bs, parsedOf b = none) : tablesAfter acc bs = acc := by
  induction bs generalizing acc with
  | nil => rfl
  | cons b rest ih =>
    have hb : parsedOf b = none := h b (by simp)
    simp only [tablesAfter, List.foldl_cons, applyBlob, hb]
    exact ih acc (fun b hb2 => h b (by simp [hb2]))

theorem prefix_map_fst_zip {α β : Type} (l1 : List α) (l2 : List β) :
    ((l1.zip l2).map Prod.fst) <+: l1 := by
  induction l1 generalizing l2 with
  | nil => simp
  | cons a l1 ih =>
    cases l2 with
    | nil => simp
    | cons b l2 =>
      simp only [List.zip_cons_cons, List.map_cons]
      obtain ⟨t, ht⟩ := ih l2
      exact ⟨t, by simp [ht]⟩

theorem pushedRows_records (df : DataFrame) :
    pushedRows df =
      (toRecords df).map (fun row => row.map (fun cell => (cell.1, nullToEmpty cell.2))) := by
  simp only [pushedRows, toRecords, fillNull, List.map_map]
  refine List.map_congr_left ?_
  intro r hr
  simp [List.zip_map_right, Function.comp, Prod.map]

theorem pushedRows_keys_from_columns (df : DataFrame) :
    ∀ row ∈ pushedRows df, (row.map Prod.fst) <+: df.columns := by
  intro row hrow
  simp only [pushedRows, toRecords, fillNull, List.mem_map] at hrow
  obtain ⟨r, hr, rfl⟩ := hrow
  exact prefix_map_fst_zip df.columns r


/-- C1: for every `/generate` request in which any of the four required
fields (container_name, folder_name, report_name, target_workspace_id) is
missing, the handler returns the 400 client-error response naming the
required fields and performs no remote calls: the trace is empty, so there
is no token request, blob listing, dataset creation, row push, or report
clone. -/
theorem missing_field_client_error_no_calls (cfg : Config) (env : Env) (p : Request)
    (h : p.container_name = none ∨ p.folder_name = none ∨ p.report_name = none ∨
      p.target_workspace_id = none) :
    generate cfg env p =
      (Except.error
        { status := 400,
          detail := "container_name, folder_name, report_name, target_workspace_id required" },
       []) := by
  have hv : requiredPresent p = false := by
    rcases h with h | h | h | h <;> simp [requiredPresent, h, truthy]
  simp [generate, generateM, hv, raiseHttp_apply]

/-- Witness for C1: the concrete request lacking `report_name` gets the 400
response and an empty call trace. -/
theorem missing_field_client_error_no_calls_witness :
    generate sampleConfig sampleEnv
      { container_name := some "acme", folder_name := some "2024",
        report_name := none, target_workspace_id := some "ws1" } =
      (Except.error
        { status := 400,
          detail := "container_name, folder_name, report_name, target_workspace_id required" },
       []) :=
  missing_field_client_error_no_calls sampleConfig sampleEnv _
    (Or.inr (Or.inr (Or.inl rfl)))

/-- C10: a request in which every required field is present but one of them
is the empty string gets exactly the same 400 response with an empty trace
as a request missing that field — Python truthiness makes an empty string
indistinguishable from an absent field. -/
theorem empty_string_field_client_error_no_calls (cfg : Config) (env : Env) (p : Request)
    (h : p.container_name = some "" ∨ p.folder_name = some "" ∨ p.report_name = some "" ∨
      p.target_workspace_id = some "") :
    generate cfg env p =
      (Except.error
        { status := 400,
          detail := "container_name, folder_name, report_name, target_workspace_id required" },
       []) := by
  have hv : requiredPresent p = false := by
    rcases h with h | h | h | h <;> simp [requiredPresent, h, truthy]
  simp [generate, generateM, hv, raiseHttp_apply]

/-- Witness for C10: all four fields present but `target_workspace_id` is
the empty string; the response equals the missing-field response. -/
theorem empty_string_field_client_error_no_calls_witness :
    generate sampleConfig sampleEnv
      { container_name := some "acme", folder_name := some "2024",
        report_name := some "Q1 Report", target_workspace_id := some "" } =
      (Except.error
        { status := 400,
          detail := "container_name, folder_name, report_name, target_workspace_id required" },
       []) :=
  empty_string_field_client_error_no_calls sampleConfig sampleEnv _
    (Or.inr (Or.inr (Or.inr rfl)))

/-- C2 counterexample: for the CSV with columns id,name and rows
(1,"a"), (2,"b"), the row-push request body is not the stringified rows
[{"id":"1","name":"a"},{"id":"2","name":"b"}] — pandas parses the id column
as integers and `push_rows` serialises the cells without stringifying them. -/
theorem push_rows_values_not_stringified :
    (push_rows sampleEnv "tok" "ws1" "ds-1" "data" (read_csv sampleCsv) []).2 ≠
      [Call.pushRows "ws1" "ds-1" "data"
        [[("id", Value.str "1"), ("name", Value.str "a")],
         [("id", Value.str "2"), ("name", Value.str "b")]]] := by decide

/-- C2 amended: for that CSV the dataset-creation call declares columns id
and name, both with dataType string, and the pushed rows are
[{"id": 1, "name": "a"}, {"id": 2, "name": "b"}] — each cell keeps the type
pandas parsed (the integer cells stay numbers); only the declared schema is
text. -/
theorem csv_roundtrip_schema_and_rows :
    (create_dataset sampleEnv "tok" "ws1" [("data", read_csv sampleCsv)] []).2 =
      [Call.createDataset "ws1"
        { name := "Migrated_Dataset", defaultMode := "Push",
          tables := [{ name := "data",
                       columns := [{ name := "id", dataType := "string" },
                                   { name := "name", dataType := "string" }] }] }] ∧
    (push_rows sampleEnv "tok" "ws1" "ds-1" "data" (read_csv sampleCsv) []).2 =
      [Call.pushRows "ws1" "ds-1" "data"
        [[("id", Value.num 1), ("name", Value.str "a")],
         [("id", Value.num 2), ("name", Value.str "b")]]] :=
  ⟨by decide, by decide⟩

/-- C5: `create_dataset` emits exactly the schema payload built from the
tables, and every column of every table in that payload is declared with
dataType "string", whatever the source data contained. -/
theorem dataset_schema_all_text (env : Env) (token workspace : String)
    (tables : List (String × DataFrame)) (t : List Call) :
    (create_dataset env token workspace tables t).2 =
      t ++ [Call.createDataset workspace (datasetPayload tables)] ∧
    ∀ td ∈ (datasetPayload tables).tables, ∀ col ∈ td.columns, col.dataType = "string" := by
  refine ⟨rfl, ?_⟩
  intro td htd col hcol
  simp only [datasetPayload, List.mem_map] at htd
  obtain ⟨e, he, rfl⟩ := htd
  simp only [List.mem_map] at hcol
  obtain ⟨c, hc, rfl⟩ := hcol
  rfl

/-- Witness for C5 at the round-trip table: the emitted call and the id
column's declared type. -/
theorem dataset_schema_all_text_witness :
    ((create_dataset sampleEnv "tok" "ws1" [("data", read_csv sampleCsv)] []).2 =
      [Call.createDataset "ws1" (datasetPayload [("data", read_csv sampleCsv)])]) ∧
    ColumnDef.dataType { name := "id", dataType := "string" } = "string" :=
  ⟨(dataset_schema_all_text sampleEnv "tok" "ws1" [("data", read_csv sampleCsv)] []).1,
   (dataset_schema_all_text sampleEnv "tok" "ws1" [("data", read_csv sampleCsv)] []).2
     { name := "data",
       columns := [{ name := "id", dataType := "string" },
                   { name := "name", dataType := "string" }] }
     (by decide)
     { name := "id", dataType := "string" } (by decide)⟩

/-- C6: `push_rows` transmits the table's records with every missing cell
replaced by the empty string (`df.where(pd.notnull(df), "")`), and no
transmitted cell is ever the null marker. -/
theorem push_rows_nulls_become_empty (env : Env) (token w ds n : String)
    (df : DataFrame) (t : List Call) :
    (push_rows env token w ds n df t).2 = t ++ [Call.pushRows w ds n (pushedRows df)] ∧
    pushedRows df =
      (toRecords df).map (fun row => row.map (fun cell => (cell.1, nullToEmpty cell.2))) ∧
    ∀ row ∈ pushedRows df, ∀ cell ∈ row, cell.2 ≠ Value.null := by
  refine ⟨rfl, pushedRows_records df, ?_⟩
  intro row hrow cell hcell
  rw [pushedRows_records df] at hrow
  simp only [List.mem_map] at hrow
  obtain ⟨row0, hrow0, rfl⟩ := hrow
  simp only [List.mem_map] at hcell
  obtain ⟨cell0, hcell0, rfl⟩ := hcell
  cases h0 : cell0.2 <;> simp [nullToEmpty, h0]

/-- Witness for C6 on the CSV with a missing `name` cell: the pushed rows
carry the empty string there, and that transmitted cell is not null. -/
theorem push_rows_nulls_become_empty_witness :
    pushedRows (read_csv gapCsv) =
      [[("id", Value.num 1), ("name", Value.str "")],
       [("id", Value.num 2), ("name", Value.str "b")]] ∧
    (("name", Value.str "") : String × Value).2 ≠ Value.null :=
  ⟨by decide,
   (push_rows_nulls_become_empty sampleEnv "tok" "ws1" "ds-1" "data"
      (read_csv gapCsv) []).2.2
     [("id", Value.num 1), ("name", Value.str "")] (by decide)
     ("name", Value.str "") (by decide)⟩

/-- C9: every invocation of the handler runs the strict linear sequence —
validate required fields, acquire token, read source tables, create
dataset, push rows per table in mapping iteration order, clone report,
return identifiers — as captured by `specPipeline`: a failure at any step
produces exactly the calls of the completed steps plus the failing one
(every later step's call is absent), and the calls already performed stay
in the trace unchanged; `Call` has no delete or rollback operation, so no
completed remote side effect is undone. -/
theorem generate_is_linear_pipeline (cfg : Config) (env : Env) (p : Request) :
    generate cfg env p = specPipeline cfg env p :=
  generate_eq_specPipeline cfg env p

/-- C3 counterexample: in the end-to-end scenario (request container acme,
folder 2024, report_name "Q1 Report", workspace ws1, one matching CSV), the
successful response holds exactly datasetId, reportId, tables and
workspaceId — there is no reportName key, so the response cannot satisfy
reportName == "Q1 Report". -/
theorem success_response_lacks_reportName :
    (generate sampleConfig sampleEnv sampleRequest).1 =
      Except.ok [("datasetId", RespVal.s "ds-1"), ("reportId", RespVal.s "rep-1"),
                 ("tables", RespVal.arr ["data"]), ("workspaceId", RespVal.s "ws1")] ∧
    lookupResp [("datasetId", RespVal.s "ds-1"), ("reportId", RespVal.s "rep-1"),
                ("tables", RespVal.arr ["data"]), ("workspaceId", RespVal.s "ws1")]
      "reportName" = none :=
  ⟨by decide, by decide⟩

/-- C3 amended: every successful response consists of exactly a dataset id,
a report id, the list of table names, and the target workspace id, in that
key order; the requested report name is passed to the clone call but never
echoed back — the response has no reportName field. -/
theorem success_response_shape (cfg : Config) (env : Env) (p : Request)
    (resp : Response) (h : (generate cfg env p).1 = Except.ok resp) :
    (∃ ds rid names,
      resp = [("datasetId", RespVal.s ds), ("reportId", RespVal.s rid),
              ("tables", RespVal.arr names),
              ("workspaceId", RespVal.s (p.target_workspace_id.getD ""))]) ∧
    lookupResp resp "reportName" = none := by
  rw [generate_eq_specPipeline] at h
  unfold specPipeline at h
  by_cases hv : requiredPresent p
  · simp only [hv, Bool.not_true, Bool.false_eq_true, if_false] at h
    cases htok : env.tokenResult with
    | error e => simp [htok] at h
    | ok tok =>
      simp only [htok] at h
      by_cases hemp : (tablesAfter [] (matchingBlobs env (p.container_name.getD "")
          (p.folder_name.getD ""))).isEmpty
      · simp [hemp] at h
      · simp only [hemp, Bool.false_eq_true, if_false] at h
        cases hcr : env.createResult with
        | error e => simp [hcr] at h
        | ok ds =>
          simp only [hcr] at h
          cases hps : (pushSpec env (p.target_workspace_id.getD "") ds
              (tablesAfter [] (matchingBlobs env (p.container_name.getD "")
                (p.folder_name.getD "")))).2 with
          | error e => simp [hps] at h
          | ok u =>
            simp only [hps] at h
            cases hcl : env.cloneResult with
            | error e => simp [hcl] at h
            | ok rid =>
              simp only [hcl, Except.ok.injEq] at h
              subst h
              exact ⟨⟨ds, rid, _, rfl⟩, by simp [lookupResp]⟩
  · simp [hv] at h

/-- Witness for C3 amended at the end-to-end scenario. -/
theorem success_response_shape_witness :
    (∃ ds rid names,
      ([("datasetId", RespVal.s "ds-1"), ("reportId", RespVal.s "rep-1"),
        ("tables", RespVal.arr ["data"]), ("workspaceId", RespVal.s "ws1")] : Response) =
        [("datasetId", RespVal.s ds), ("reportId", RespVal.s rid),
         ("tables", RespVal.arr names),
         ("workspaceId", RespVal.s (sampleRequest.target_workspace_id.getD ""))]) ∧
    lookupResp [("datasetId", RespVal.s "ds-1"), ("reportId", RespVal.s "rep-1"),
                ("tables", RespVal.arr ["data"]), ("workspaceId", RespVal.s "ws1")]
      "reportName" = none :=
  success_response_shape sampleConfig sampleEnv sampleRequest
    [("datasetId", RespVal.s "ds-1"), ("reportId", RespVal.s "rep-1"),
     ("tables", RespVal.arr ["data"]), ("workspaceId", RespVal.s "ws1")]
    (by decide)

/-- C4: when no blob under the folder prefix has a parsable extension
(empty or non-matching folder), the blob reader answers 404 "No valid files
found", and the handler's whole trace contains no dataset-creation,
row-push, or report-clone call — those steps are never reached. -/
theorem no_parsable_blobs_not_found (cfg : Config) (env : Env) (p : Request)
    (t : List Call)
    (hb : ∀ b ∈ matchingBlobs env (p.container_name.getD "") (p.folder_name.getD ""),
      parsedOf b = none) :
    (read_blob_tables env (p.container_name.getD "") (p.folder_name.getD "") t).1 =
      Except.error { status := 404, detail := "No valid files found" } ∧
    ∀ call ∈ (generate cfg env p).2, isWriteCall call = false := by
  have htb : tablesAfter [] (matchingBlobs env (p.container_name.getD "")
      (p.folder_name.getD "")) = [] := tablesAfter_of_none _ _ hb
  constructor
  · rw [read_blob_tables_spec]
    simp [htb]
  · rw [generate_eq_specPipeline]
    unfold specPipeline
    by_cases hv : requiredPresent p
    · simp only [hv, Bool.not_true, Bool.false_eq_true, if_false]
      cases htok : env.tokenResult with
      | error e => simp [isWriteCall]
      | ok tok =>
        simp only [htb, List.isEmpty_nil, if_true]
        intro call hc
        simp only [List.mem_cons, downloadCalls, List.mem_map] at hc
        rcases hc with rfl | rfl | ⟨b, hb2, rfl⟩
        · rfl
        · rfl
        · rfl
    · simp [hv]

/-- Witness for C4: a folder holding only `notes.txt`. -/
theorem no_parsable_blobs_not_found_witness :
    (read_blob_tables txtEnv "acme" "2024" []).1 =
      Except.error { status := 404, detail := "No valid files found" } ∧
    ∀ call ∈ (generate sampleConfig txtEnv sampleRequest).2, isWriteCall call = false :=
  no_parsable_blobs_not_found sampleConfig txtEnv sampleRequest [] (by decide)


/-- C7: with exactly `orders.csv` and `customers.xlsx` under the folder
prefix, the table mapping is exactly orders ↦ parsed CSV and customers ↦
parsed sheet, in that order; in a run whose remote calls succeed, each
table is pushed by its own separate row-push request, and every pushed row
of a table carries only keys drawn from that table's own column list. -/
theorem multi_table_independent_push (cfg : Config) (env : Env) (p : Request)
    (c1 c2 tok ds w rn : String)
    (hw : w ≠ "") (hrn : rn ≠ "")
    (hp : p = { container_name := some "acme", folder_name := some "2024",
                report_name := some rn, target_workspace_id := some w })
    (hb : env.blobs "acme" =
      [{ name := "2024/orders.csv", content := c1 },
       { name := "2024/customers.xlsx", content := c2 }])
    (htok : env.tokenResult = Except.ok tok)
    (hcr : env.createResult = Except.ok ds)
    (hpush : ∀ n, env.pushResult n = Except.ok ()) :
    (read_blob_tables env "acme" "2024" []).1 =
      Except.ok [("orders", read_csv c1), ("customers", read_excel c2)] ∧
    (generate cfg env p).2.filter isWriteCall =
      [Call.createDataset w
        (datasetPayload [("orders", read_csv c1), ("customers", read_excel c2)]),
       Call.pushRows w ds "orders" (pushedRows (read_csv c1)),
       Call.pushRows w ds "customers" (pushedRows (read_excel c2)),
       Call.cloneReport cfg.templateWorkspaceId cfg.templateReportId rn w ds] ∧
    (∀ row ∈ pushedRows (read_csv c1), (row.map Prod.fst) <+: (read_csv c1).columns) ∧
    (∀ row ∈ pushedRows (read_excel c2), (row.map Prod.fst) <+: (read_excel c2).columns) := by
  have hcat : strCat "2024" "/" = "2024/" := by decide
  have hsw1 : strStartsWith "2024/orders.csv" "2024/" = true := by decide
  have hsw2 : strStartsWith "2024/customers.xlsx" "2024/" = true := by decide
  have hms : matchingBlobs env "acme" "2024" =
      [{ name := "2024/orders.csv", content := c1 },
       { name := "2024/customers.xlsx", content := c2 }] := by
    simp [matchingBlobs, hb, hcat, hsw1, hsw2]
  have hparsed1 : parsedOf { name := "2024/orders.csv", content := c1 } =
      some ("orders", read_csv c1) := by
    have e1 : baseName "2024/orders.csv" = "orders.csv" := by decide
    have e2 : strEndsWith "orders.csv" ".csv" = true := by decide
    have e3 : stem "orders.csv" = "orders" := by decide
    simp [parsedOf, e1, e2, e3]
  have hparsed2 : parsedOf { name := "2024/customers.xlsx", content := c2 } =
      some ("customers", read_excel c2) := by
    have e1 : baseName "2024/customers.xlsx" = "customers.xlsx" := by decide
    have e2 : strEndsWith "customers.xlsx" ".csv" = false := by decide
    have e3 : strEndsWith "customers.xlsx" ".xls" = false := by decide
    have e4 : strEndsWith "customers.xlsx" ".xlsx" = true := by decide
    have e5 : stem "customers.xlsx" = "customers" := by decide
    simp [parsedOf, e1, e2, e3, e4, e5]
  have htbl : tablesAfter [] [({ name := "2024/orders.csv", content := c1 } : Blob),
      { name := "2024/customers.xlsx", content := c2 }] =
      [("orders", read_csv c1), ("customers", read_excel c2)] := by
    simp [tablesAfter, applyBlob, hparsed1, hparsed2, dictUpdate]
  have hpsp : pushSpec env w ds [("orders", read_csv c1), ("customers", read_excel c2)] =
      ([Call.pushRows w ds "orders" (pushedRows (read_csv c1)),
        Call.pushRows w ds "customers" (pushedRows (read_excel c2))], Except.ok ()) := by
    simp [pushSpec, hpush]
  refine ⟨?_, ?_, pushedRows_keys_from_columns (read_csv c1), pushedRows_keys_from_columns (read_excel c2)⟩
  · rw [read_blob_tables_spec]
    simp [hms, htbl]
  · rw [generate_eq_specPipeline]
    subst hp
    unfold specPipeline
    have hrp : requiredPresent
        { container_name := some "acme", folder_name := some "2024",
          report_name := some rn, target_workspace_id := some w } = true := by
      simp [requiredPresent, truthy, hw, hrn]
    simp only [hrp, Bool.not_true, Bool.false_eq_true, if_false, Option.getD_some,
      htok, hms, htbl, hcr, hpsp, hcat]
    cases hcl : env.cloneResult <;>
      simp [downloadCalls, isWriteCall, List.filter]

/-- Witness for C7 with concrete contents and all-success remotes. -/
theorem multi_table_independent_push_witness :
    (read_blob_tables multiEnv "acme" "2024" []).1 =
      Except.ok [("orders", read_csv "sku,qty\n7,2"),
                 ("customers", read_excel "cust,region\nx,north")] ∧
    (generate sampleConfig multiEnv sampleRequest).2.filter isWriteCall =
      [Call.createDataset "ws1"
        (datasetPayload [("orders", read_csv "sku,qty\n7,2"),
                         ("customers", read_excel "cust,region\nx,north")]),
       Call.pushRows "ws1" "ds-1" "orders" (pushedRows (read_csv "sku,qty\n7,2")),
       Call.pushRows "ws1" "ds-1" "customers"
         (pushedRows (read_excel "cust,region\nx,north")),
       Call.cloneReport sampleConfig.templateWorkspaceId sampleConfig.templateReportId
         "Q1 Report" "ws1" "ds-1"] ∧
    (∀ row ∈ pushedRows (read_csv "sku,qty\n7,2"),
      (row.map Prod.fst) <+: (read_csv "sku,qty\n7,2").columns) ∧
    (∀ row ∈ pushedRows (read_excel "cust,region\nx,north"),
      (row.map Prod.fst) <+: (read_excel "cust,region\nx,north").columns) :=
  multi_table_independent_push sampleConfig multiEnv sampleRequest
    "sku,qty\n7,2" "cust,region\nx,north" "tok" "ds-1" "ws1" "Q1 Report"
    (by decide) (by decide) rfl rfl rfl rfl (fun _ => rfl)

/-- C8: whenever the blob reader returns a table mapping, each table's name
is the stem of a parsed file, the mapping holds exactly one table per
distinct stem (its key list has no duplicates), and the table stored under
a stem is the one from the last listed file with that stem — a later file
silently overwrites an earlier one with the same base name, with no
error. -/
theorem duplicate_stems_overwrite (env : Env) (c f : String) (t tr : List Call)
    (tables : List (String × DataFrame))
    (h : read_blob_tables env c f t = (Except.ok tables, tr)) :
    (tables.map Prod.fst).Nodup ∧
    (∀ n, lookupTable tables n = lastAssoc (parsedEntries (matchingBlobs env c f)) n) ∧
    (∀ n ∈ tables.map Prod.fst, n ∈ (parsedEntries (matchingBlobs env c f)).map Prod.fst) := by
  rw [read_blob_tables_spec] at h
  by_cases hemp : (tablesAfter [] (matchingBlobs env c f)).isEmpty
  · simp [hemp] at h
  · have h1 := congrArg Prod.fst h
    simp only [hemp, Bool.false_eq_true, if_false, Except.ok.injEq] at h1
    have htab : tablesAfter [] (matchingBlobs env c f) = tables := h1
    refine ⟨?_, ?_, ?_⟩
    · rw [← htab]
      exact tablesAfter_nodup _ [] (by simp)
    · intro n
      rw [← htab, lookupTable_tablesAfter]
      cases hl : lastAssoc (parsedEntries (matchingBlobs env c f)) n <;>
        simp [hl, lookupTable]
    · intro n hn
      rw [← htab] at hn
      have hlk : lookupTable (tablesAfter [] (matchingBlobs env c f)) n ≠ none :=
        fun h0 => ((lookupTable_eq_none_iff _ n).mp h0) hn
      rw [lookupTable_tablesAfter] at hlk
      cases hl : lastAssoc (parsedEntries (matchingBlobs env c f)) n with
      | some v => exact lastAssoc_mem _ n v hl
      | none =>
        rw [hl] at hlk
        simp [lookupTable] at hlk

/-- Witness for C8: `dup.csv` then `dup.xlsx` under the prefix yield one
table named dup holding the second file's content. -/
theorem duplicate_stems_overwrite_witness :
    ((([("dup", read_excel "b\ny")] : List (String × DataFrame)).map Prod.fst).Nodup) ∧
    (∀ n, lookupTable [("dup", read_excel "b\ny")] n =
      lastAssoc (parsedEntries (matchingBlobs dupEnv "acme" "2024")) n) ∧
    (∀ n ∈ ([("dup", read_excel "b\ny")] : List (String × DataFrame)).map Prod.fst,
      n ∈ (parsedEntries (matchingBlobs dupEnv "acme" "2024")).map Prod.fst) :=
  duplicate_stems_overwrite dupEnv "acme" "2024" []
    [Call.listBlobs "acme" "2024/", Call.downloadBlob "acme" "2024/dup.csv",
     Call.downloadBlob "acme" "2024/dup.xlsx"]
    [("dup", read_excel "b\ny")] (by decide)

end BlobPush
